import Mathlib

/-!
Verification of the core of the interactive-brokers-mcp repository:
the Gateway Process Supervisor (`src/gateway-manager.ts`), the Headless
Authentication Driver (`src/headless-auth.ts`) and the secure tunnel
manager. Each TypeScript routine relevant to the properties below is
shallowly embedded as an executable Lean definition; the asynchronous
routines become explicit state-passing functions over an environment
that supplies the outcomes of OS commands, network probes and browser
actions.
-/

namespace IBMcp

/-! ## PortProbe: `isPortAvailable` (gateway-manager.ts, lines 41-80)

The probe runs an OS listing command (`lsof -i :port` / `netstat`).
The embedding abstracts the `exec` callback outcome: either the command
failed (`error` truthy), or it succeeded with some stdout text. -/

/-- The JavaScript `\s` class (also the set stripped by
`String.prototype.trim`), restricted to the ASCII whitespace
characters (space, tab, line feed, vertical tab, form feed, carriage
return). -/
def jsSpace (c : Char) : Bool :=
  c == ' ' || c == '\t' || c == '\n' || c == '\r' ||
    c == Char.ofNat 11 || c == Char.ofNat 12

/-- JavaScript `String.prototype.trim`: strip leading and trailing
whitespace. -/
def jsTrim (l : List Char) : List Char :=
  ((l.dropWhile jsSpace).reverse.dropWhile jsSpace).reverse

/-- Outcome of the `exec` OS-command callback: failure, or stdout text. -/
inductive ExecResult where
  | fail : ExecResult
  | ok : String → ExecResult
deriving DecidableEq, Repr

/-- The probe `isPortAvailable`: the command failing means the port is reported
available; on success the port is available iff the trimmed stdout is
empty (gateway-manager.ts lines 63-78). -/
def isPortAvailable : ExecResult → Bool
  | .fail => true
  | .ok stdout => jsTrim stdout.data == []

/-! ## PortProbe: `findAvailablePort` (gateway-manager.ts, lines 358-369)

Loops `i` from `0` to `maxAttempts - 1`, probing `startPort + i`, and
returns the first available port; throws when none is found.  The throw
is embedded as `none`. -/

/-- One iteration layer of the `findAvailablePort` loop: `port` is the
current candidate, the second argument is the number of attempts left. -/
def findAvailablePortFrom (exec : Nat → ExecResult) : Nat → Nat → Option Nat
  | _, 0 => none
  | port, n + 1 =>
    if isPortAvailable (exec port) then some port
    else findAvailablePortFrom exec (port + 1) n

/-- Entry point `findAvailablePort(startPort, maxAttempts)`; `none` embeds the
`No available ports found` throw. -/
def findAvailablePort (exec : Nat → ExecResult) (startPort maxAttempts : Nat) :
    Option Nat :=
  findAvailablePortFrom exec startPort maxAttempts

/-! ## HealthChecker: `checkGatewayHealth` / `waitForGateway`
(gateway-manager.ts, lines 724-780)

A single HTTPS probe of `https://localhost:<port>/` either yields a
status code, a connection error, or a timeout.  The request callback
resolves `true` exactly for status 200, 401 or 302; the `error` and
`timeout` handlers resolve `false` (never reject). -/

/-- Outcome of one HTTPS health probe. -/
inductive ProbeOutcome where
  | status : Nat → ProbeOutcome
  | connError : ProbeOutcome
  | timedOut : ProbeOutcome
deriving DecidableEq, Repr

/-- The probe `checkGatewayHealth` resolves `true` iff the response status is
200, 401 or 302; request errors and timeouts resolve `false`. -/
def checkGatewayHealth : ProbeOutcome → Bool
  | .status code => code == 200 || code == 401 || code == 302
  | .connError => false
  | .timedOut => false

/-- The `waitForGateway` polling loop: `attempt` is the current attempt
index, the second argument the number of attempts left.  Returns `true`
on the first successful probe, `false` (the timeout throw) when the
attempts are exhausted. -/
def waitForGatewayFrom (probes : Nat → ProbeOutcome) : Nat → Nat → Bool
  | _, 0 => false
  | attempt, n + 1 =>
    if checkGatewayHealth (probes attempt) then true
    else waitForGatewayFrom probes (attempt + 1) n

/-- Entry point `waitForGateway` with its bounded attempt budget (`maxAttempts = 30`
in the source). -/
def waitForGateway (probes : Nat → ProbeOutcome) (maxAttempts : Nat) : Bool :=
  waitForGatewayFrom probes 0 maxAttempts

/-! ## ProcessSupervisor state (class `IBGatewayManager` fields)

The mutable fields of the manager instance, plus a spawn counter used
to count `spawn(...)` calls across a run.  A live subprocess handle is
`some` with `killed = false`. -/

/-- A spawned subprocess handle: its pid and whether it was killed. -/
structure ProcHandle where
  pid : Nat
  killed : Bool
deriving DecidableEq, Repr

/-- The supervisor's mutable instance state.  `tempConfigPorts` records
the ports for which `createTempConfigWithPort` wrote a derived config;
`backgroundStartup` mirrors `backgroundStartupPromise !== null`;
`spawnCount` counts subprocess spawns (not a source field — it is the
observable the idempotence claims are about). -/
structure SupState where
  gatewayProcess : Option ProcHandle
  isStarting : Bool
  isReady : Bool
  currentPort : Nat
  tempConfigPorts : List Nat
  backgroundStartup : Bool
  spawnCount : Nat
deriving DecidableEq, Repr

/-- The freshly constructed manager (constructor, lines 14-22). -/
def initialSupState : SupState :=
  { gatewayProcess := none
    isStarting := false
    isReady := false
    currentPort := 5000
    tempConfigPorts := []
    backgroundStartup := false
    spawnCount := 0 }

/-- Environment for one `startGatewayInternal` run: whether the gateway
artifact (`bin/run.sh`) and the bundled Java runtime exist on disk, the
OS listing command outcome per port, the pid `spawn` hands back, and
the per-attempt health-probe outcomes. -/
structure GatewayEnv where
  artifactOnDisk : Bool
  javaOnDisk : Bool
  portExec : Nat → ExecResult
  spawnPid : Nat
  healthProbes : Nat → ProbeOutcome

/-- Typed startup errors thrown by `startGatewayInternal`. -/
inductive StartError where
  | gatewayNotFound
  | runtimeNotFound
  | startupTimedOut
deriving DecidableEq, Repr

/-- The default gateway port (gateway-manager.ts line 620). -/
def defaultPort : Nat := 5000

/-- The attempt budget of `waitForGateway` (line 725): 30 attempts, 1s apart. -/
def healthMaxAttempts : Nat := 30

/-- The port-resolution block of `startGatewayInternal` (lines
620-637): use the default port when it is free; otherwise try
`findAvailablePort(5001, 9)` and record the temp config written for
the alternative port; when even that throws, fall back to the default
port anyway. -/
def resolvePortState (env : GatewayEnv) (s : SupState) : SupState :=
  if isPortAvailable (env.portExec defaultPort) then
    { s with currentPort := defaultPort }
  else
    match findAvailablePort env.portExec 5001 9 with
    | some p =>
      { s with currentPort := p, tempConfigPorts := p :: s.tempConfigPorts }
    | none => { s with currentPort := defaultPort }

/-- The `spawn(...)` assignment (line 655): a fresh, unkilled
subprocess handle is stored and one more spawn is counted. -/
def spawnState (env : GatewayEnv) (s : SupState) : SupState :=
  { s with gatewayProcess := some ⟨env.spawnPid, false⟩
           spawnCount := s.spawnCount + 1 }

/-- The routine `startGatewayInternal` (lines 595-722) as a big-step state
transformer.  The guard (lines 596-599) returns at once while starting
or ready.  Otherwise `isStarting` is set, the artifact is checked
(`ensureGatewayExists`), the port is resolved (`resolvePortState`),
the runtime is checked (`getJavaPath`), the subprocess is spawned, and
`waitForGateway` polls.  The `catch` (lines 717-721) resets both flags
and rethrows; it does not touch `gatewayProcess`. -/
def startGatewayInternal (env : GatewayEnv) (s : SupState) :
    SupState × Except StartError Unit :=
  if s.isStarting || s.isReady then
    (s, .ok ())
  else
    let s1 : SupState := { s with isStarting := true }
    if env.artifactOnDisk = false then
      ({ s1 with isStarting := false, isReady := false }, .error .gatewayNotFound)
    else
      let s2 : SupState := resolvePortState env s1
      if env.javaOnDisk = false then
        ({ s2 with isStarting := false, isReady := false }, .error .runtimeNotFound)
      else
        let s3 : SupState := spawnState env s2
        if waitForGateway env.healthProbes healthMaxAttempts then
          ({ s3 with isStarting := false, isReady := true }, .ok ())
        else
          ({ s3 with isStarting := false, isReady := false },
            .error .startupTimedOut)

/-- The supervisor states at the suspension (await) points of a
guard-passing `startGatewayInternal` run, in order: after the guard
(during `logSystemResources` / `ensureGatewayExists` /
`killZombieGatewayProcesses` / the default-port probe), after port
resolution (during the temp-config write), and after `spawn` (during
every `waitForGateway` poll).  A re-entrant `start()` interleaved at
any of these points observes exactly one of these states. -/
def startInternalTrace (env : GatewayEnv) (s : SupState) : List SupState :=
  if s.isStarting || s.isReady then []
  else
    let s1 : SupState := { s with isStarting := true }
    if env.artifactOnDisk = false then [s1]
    else
      let s2 : SupState := resolvePortState env s1
      if env.javaOnDisk = false then [s1, s2]
      else [s1, s2, spawnState env s2]

/-- The accessor `isGatewayReady` (lines 835-837): readiness flag AND a non-null
subprocess handle. -/
def isGatewayReady (s : SupState) : Bool :=
  s.isReady && s.gatewayProcess.isSome

/-- The background kick-off `startGatewayAsync` (lines 528-551) at call time: records the
in-flight background promise (the promise body runs later). -/
def startGatewayAsyncMark (s : SupState) : SupState :=
  if s.backgroundStartup then s else { s with backgroundStartup := true }

/-- Environment for `quickStartGateway`: the port found by
`quickCheckExistingGateway`, if any. -/
structure QuickEnv where
  quickExistingPort : Option Nat

/-- The fast path `quickStartGateway` (lines 509-525): adopting an existing gateway
records its port and sets the readiness flag, without spawning and
without touching `gatewayProcess`; otherwise the background startup is
kicked off. -/
def quickStartGateway (env : QuickEnv) (s : SupState) : SupState :=
  match env.quickExistingPort with
  | some p => { s with currentPort := p, isReady := true }
  | none => startGatewayAsyncMark s

/-! ## ConfigRewriter: `createTempConfigWithPort` and
`cleanupTempConfigFiles` (gateway-manager.ts, lines 371-387, 451-467)

`createTempConfigWithPort` does
`content.replace(/listenPort:\s*\d+/, listenPort: port)` — a
non-global regex replace, i.e. leftmost match only — and writes the
result to `conf-<port>.yaml`.  `cleanupTempConfigFiles` deletes every
file whose name matches `/^conf-\d+\.yaml$/`.  Strings are embedded as
`List Char`; because `\s` and `\d` are disjoint character classes the
greedy match is the maximal whitespace run followed by the maximal
digit run. -/

/-- The literal part of the pattern `/listenPort:\s*\d+/`. -/
def listenPortLit : List Char := "listenPort:".data

/-- Match the regex `/listenPort:\s*\d+/` at the head of `l`: the
literal, a greedy whitespace run, then a nonempty greedy digit run.
Returns the matched region and the remainder. -/
def matchPortField (l : List Char) : Option (List Char × List Char) :=
  if l.take 11 = listenPortLit then
    let rest := l.drop 11
    let ws := rest.takeWhile jsSpace
    let after := rest.dropWhile jsSpace
    let ds := after.takeWhile Char.isDigit
    if ds = [] then none
    else some (listenPortLit ++ ws ++ ds, after.dropWhile Char.isDigit)
  else none

/-- JavaScript `String.prototype.replace` with the non-global pattern
`/listenPort:\s*\d+/`: replace the leftmost match by `rep`, or return
the input unchanged when there is no match. -/
def replacePortField (rep : List Char) : List Char → List Char
  | [] => []
  | c :: cs =>
    match matchPortField (c :: cs) with
    | some (_, rest) => rep ++ rest
    | none => c :: replacePortField rep cs

/-- One decimal digit as a character. -/
def digitChar (d : Nat) : Char := Char.ofNat (48 + d)

/-- The decimal rendering of a natural number, as produced by the
JavaScript template interpolation of a nonnegative integer. -/
def natDigits (n : Nat) : List Char :=
  if h : n < 10 then [digitChar n]
  else
    have : n / 10 < n := Nat.div_lt_self (by omega) (by omega)
    natDigits (n / 10) ++ [digitChar (n % 10)]
termination_by n

/-- The replacement text `listenPort: port` (one space, then the
port's decimal digits). -/
def portFieldReplacement (port : Nat) : List Char :=
  "listenPort: ".data ++ natDigits port

/-- The derived configuration content written by
`createTempConfigWithPort(port)`. -/
def createTempConfigContent (content : List Char) (port : Nat) : List Char :=
  replacePortField (portFieldReplacement port) content

/-- The derived file's name, `conf-<port>.yaml`, a sibling of
`conf.yaml`. -/
def tempConfigName (port : Nat) : List Char :=
  "conf-".data ++ natDigits port ++ ".yaml".data

/-- The cleanup filter `/^conf-\d+\.yaml$/` used by
`cleanupTempConfigFiles`: the literal `conf-`, a nonempty greedy digit
run, then exactly `.yaml`. -/
def isTempConfName (l : List Char) : Bool :=
  if l.take 5 = "conf-".data then
    let rest := l.drop 5
    let ds := rest.takeWhile Char.isDigit
    !ds.isEmpty && (rest.dropWhile Char.isDigit == ".yaml".data)
  else false

/-! ## SecureTunnelManager (secure-tunnel.ts)

The class owns a static `activeTunnels` map keyed by tunnel URL.  The
registry is embedded as the finite set of registered URLs; the value
side carries no state beyond the key.  `createSecureAuthTunnel` adds
the fresh tunnel URL and schedules a timer; a tunnel's `cleanup()`
disconnects and deletes its URL; the timer body fires `cleanup()` only
when the URL is still registered. -/

/-- The `activeTunnels` registry: the set of registered tunnel URLs
(`Map.set` keyed by URL, so URLs are never duplicated). -/
abbrev TunnelRegistry := Finset String

/-- A tunnel's `cleanup()` closure (secure-tunnel.ts lines 49-53):
`ngrok.disconnect(tunnelUrl)` then `activeTunnels.delete(tunnelUrl)`.
On the registry this is deletion of the URL. -/
def tunnelCleanup (u : String) (r : TunnelRegistry) : TunnelRegistry :=
  Finset.erase r u

/-- The registry effect of `createSecureAuthTunnel` (line 57):
`activeTunnels.set(tunnelUrl, tunnel)`. -/
def tunnelRegister (u : String) (r : TunnelRegistry) : TunnelRegistry :=
  insert u r

/-- The auto-expiry timer body scheduled at `expiryMinutes`
(lines 60-65): if the URL is still registered, invoke `cleanup()`;
otherwise do nothing. -/
def expiryTimerFire (u : String) (r : TunnelRegistry) : TunnelRegistry :=
  if u ∈ r then tunnelCleanup u r else r

/-! ## HeadlessAuthenticator: `authenticate` (headless-auth.ts,
lines 24-155)

The whole method body sits in one `try`; the `catch` returns a failure
result value, so no exception escapes.  After setup (browser launch,
navigation, form fill, submit) the polling loop runs while the elapsed
time is below the deadline; each tick sleeps 3s, prefers the injected
`ibClient.checkAuthenticationStatus()` (its exceptions are caught and
ignored), then falls back to scanning the page content for the literal
`Client login succeeds` (page exceptions likewise caught).  The
environment supplies the setup outcome, the per-tick observations, and
the number of ticks the wall-clock deadline admits. -/

/-- What one polling tick can observe: the `ibClient` status call's
outcome and the page-content check's outcome (`Except.error` embeds a
thrown-and-caught exception; `Except.ok b` for the page check means
the content's inclusion of `Client login succeeds` is `b`). -/
structure TickObs where
  ibStatus : Except String Bool
  pageHasMarker : Except String Bool

/-- Environment of one `authenticate` call. -/
structure AuthEnv where
  setup : Except String Unit
  ibClientPresent : Bool
  ticks : Nat → TickObs
  maxTicks : Nat

/-- The `HeadlessAuthResult` value shape (headless-auth.ts lines
13-18, without the unused `waitingFor2FA`). -/
structure HeadlessAuthResult where
  success : Bool
  message : String
  error : Option String
deriving DecidableEq, Repr

/-- The success result returned when the IB client confirms
authentication (lines 88-91). -/
def ibSuccessResult : HeadlessAuthResult :=
  { success := true
    message := "Headless authentication completed successfully. IB Client confirmed authentication."
    error := none }

/-- The success result returned when the page content contains the
success marker (lines 110-113). -/
def pageSuccessResult : HeadlessAuthResult :=
  { success := true
    message := "Headless authentication completed successfully. Client login succeeds message detected."
    error := none }

/-- The deadline-exhaustion result (lines 139-143): the spec's
`AuthenticationTimeout` error kind. -/
def authDeadlineResult : HeadlessAuthResult :=
  { success := false
    message := "Authentication timeout. Did not detect \"Client login succeeds\" message within the timeout period."
    error := some "Authentication timeout - success message not detected" }

/-- The `catch` result (lines 149-153): the spec's
`AuthenticationFailed` error kind, carrying the exception message. -/
def authFailureResult (e : String) : HeadlessAuthResult :=
  { success := false
    message := "Headless authentication failed"
    error := some e }

/-- Whether the IB-client check of one tick signals success: the
client must be wired in, the call must not throw, and it must report
`true` (a thrown check is caught and the loop continues). -/
def ibTickSignals (ibPresent : Bool) (o : TickObs) : Bool :=
  ibPresent &&
    match o.ibStatus with
    | .ok b => b
    | .error _ => false

/-- Whether the page-content check of one tick signals success (a
thrown check is caught and the loop continues). -/
def pageTickSignals (o : TickObs) : Bool :=
  match o.pageHasMarker with
  | .ok b => b
  | .error _ => false

/-- The polling loop (lines 77-134): `t` is the tick index, the last
argument the ticks left before the deadline.  Ticks prefer the IB
client signal, then the page marker; exhaustion yields the timeout
result. -/
def authPollLoop (ibPresent : Bool) (ticks : Nat → TickObs) :
    Nat → Nat → HeadlessAuthResult
  | _, 0 => authDeadlineResult
  | t, fuel + 1 =>
    if ibTickSignals ibPresent (ticks t) then ibSuccessResult
    else if pageTickSignals (ticks t) then pageSuccessResult
    else authPollLoop ibPresent ticks (t + 1) fuel

/-- The `try` body of `authenticate`: setup may throw (an `error`
escaping to the catch); once setup succeeds the polling loop returns a
result value. -/
def authBody (env : AuthEnv) : Except String HeadlessAuthResult :=
  match env.setup with
  | .error e => .error e
  | .ok _ => .ok (authPollLoop env.ibClientPresent env.ticks 0 env.maxTicks)

/-- The method `authenticate`: the surrounding `try`/`catch` turns any thrown
setup exception into the structured failure result, so the caller
always receives a `HeadlessAuthResult` value. -/
def authenticate (env : AuthEnv) : HeadlessAuthResult :=
  match authBody env with
  | .ok r => r
  | .error e => authFailureResult e

/-- The spec's error-kind taxonomy for authentication results. -/
inductive AuthErrorKind where
  | authenticationTimedOut
  | authenticationFailed
deriving DecidableEq, Repr

/-- Modelled from the spec: the `errorKind` carried by an
`AuthResult`, recovered from the source's concrete result values —
deadline exhaustion is `AuthenticationTimeout`, any other failure is
`AuthenticationFailed`. -/
def errorKindOf (r : HeadlessAuthResult) : Option AuthErrorKind :=
  if r.success then none
  else if r.error = authDeadlineResult.error then some .authenticationTimedOut
  else some .authenticationFailed

/-! ## Concrete fixtures

Closed inputs used to instantiate the theorems below on concrete
scenarios (the spec's §8 concrete scenarios). -/

/-- Ports 5001 and 5002 occupied (lsof output), everything else free. -/
def execBusyLow : Nat → ExecResult :=
  fun port => if port ≤ 5002 then .ok "java 1234 user IPv4 TCP LISTEN" else .fail

/-- Every port's listing command fails (the listing tool is absent). -/
def execAllFail : Nat → ExecResult := fun _ => .fail

/-- Every port occupied by some process. -/
def execAllBusy : Nat → ExecResult :=
  fun _ => .ok "java 1234 user IPv4 TCP LISTEN"

/-- Health probes: connection refused for attempts 0-28, HTTP 401 on
attempt 29. -/
def probesLate401 : Nat → ProbeOutcome :=
  fun a => if a < 29 then .connError else .status 401

/-- Health probes that never succeed. -/
def probesAllRefused : Nat → ProbeOutcome := fun _ => .connError

/-- A startup environment where everything is on disk, all ports are
free and the gateway comes up immediately. -/
def envHealthy : GatewayEnv :=
  { artifactOnDisk := true
    javaOnDisk := true
    portExec := execAllFail
    spawnPid := 42
    healthProbes := fun _ => .status 200 }

/-- A startup environment whose gateway never answers the health
probe. -/
def envNeverHealthy : GatewayEnv :=
  { artifactOnDisk := true
    javaOnDisk := true
    portExec := execAllFail
    spawnPid := 42
    healthProbes := probesAllRefused }

/-- A startup environment where every port in 5000-5009 (indeed every
port) is occupied. -/
def envPortsExhausted : GatewayEnv :=
  { artifactOnDisk := true
    javaOnDisk := true
    portExec := execAllBusy
    spawnPid := 42
    healthProbes := probesAllRefused }

/-- A quick-start environment that finds an existing gateway on port
5001. -/
def quickEnvExisting : QuickEnv := { quickExistingPort := some 5001 }

/-- An authentication environment whose setup succeeds but where no
tick ever observes a success signal (the status endpoint refuses, the
page never shows the marker). -/
def authEnvNoSignal : AuthEnv :=
  { setup := .ok ()
    ibClientPresent := true
    ticks := fun _ => { ibStatus := .error "ECONNREFUSED", pageHasMarker := .ok false }
    maxTicks := 3 }

/-! ## Helper lemmas -/

@[simp] theorem resolvePortState_isStarting (env : GatewayEnv) (s : SupState) :
    (resolvePortState env s).isStarting = s.isStarting := by
  unfold resolvePortState
  split
  · rfl
  · split <;> rfl

@[simp] theorem resolvePortState_isReady (env : GatewayEnv) (s : SupState) :
    (resolvePortState env s).isReady = s.isReady := by
  unfold resolvePortState
  split
  · rfl
  · split <;> rfl

@[simp] theorem resolvePortState_gatewayProcess (env : GatewayEnv) (s : SupState) :
    (resolvePortState env s).gatewayProcess = s.gatewayProcess := by
  unfold resolvePortState
  split
  · rfl
  · split <;> rfl

@[simp] theorem resolvePortState_spawnCount (env : GatewayEnv) (s : SupState) :
    (resolvePortState env s).spawnCount = s.spawnCount := by
  unfold resolvePortState
  split
  · rfl
  · split <;> rfl

theorem findAvailablePortFrom_first (exec : Nat → ExecResult) :
    ∀ (n port k : Nat), k < n →
      (∀ j, j < k → isPortAvailable (exec (port + j)) = false) →
      isPortAvailable (exec (port + k)) = true →
      findAvailablePortFrom exec port n = some (port + k) := by
  intro n
  induction n with
  | zero => intro port k hk; omega
  | succ m ih =>
    intro port k hk hocc hfree
    cases k with
    | zero =>
      simp only [Nat.add_zero] at hfree
      simp [findAvailablePortFrom, hfree]
    | succ j =>
      have h0 : isPortAvailable (exec (port + 0)) = false := hocc 0 (by omega)
      simp only [Nat.add_zero] at h0
      have hrec := ih (port + 1) j (by omega)
        (fun i hi => by
          have := hocc (i + 1) (by omega)
          simpa [Nat.add_assoc, Nat.add_comm 1 i] using this)
        (by simpa [Nat.add_assoc, Nat.add_comm 1 j] using hfree)
      simp only [findAvailablePortFrom, h0]
      rw [if_neg (by simp)]
      rw [hrec]
      congr 1
      omega

theorem findAvailablePortFrom_sound (exec : Nat → ExecResult) :
    ∀ (n port p : Nat), findAvailablePortFrom exec port n = some p →
      isPortAvailable (exec p) = true ∧ port ≤ p ∧ p < port + n := by
  intro n
  induction n with
  | zero => intro port p h; simp [findAvailablePortFrom] at h
  | succ m ih =>
    intro port p h
    by_cases hav : isPortAvailable (exec port) = true
    · simp [findAvailablePortFrom, hav] at h
      subst h
      exact ⟨hav, Nat.le_refl _, by omega⟩
    · simp [findAvailablePortFrom, hav] at h
      obtain ⟨h1, h2, h3⟩ := ih (port + 1) p h
      exact ⟨h1, by omega, by omega⟩

theorem findAvailablePortFrom_none_iff (exec : Nat → ExecResult) :
    ∀ (n port : Nat), findAvailablePortFrom exec port n = none ↔
      ∀ j, j < n → isPortAvailable (exec (port + j)) = false := by
  intro n
  induction n with
  | zero => intro port; simp [findAvailablePortFrom]
  | succ m ih =>
    intro port
    by_cases hav : isPortAvailable (exec port) = true
    · simp only [findAvailablePortFrom, hav, if_true]
      constructor
      · intro h; cases h
      · intro h
        have := h 0 (by omega)
        simp [hav] at this
    · have hav' : isPortAvailable (exec port) = false := Bool.eq_false_iff.mpr hav
      simp only [findAvailablePortFrom, hav']
      rw [if_neg (by simp)]
      rw [ih (port + 1)]
      constructor
      · intro h j hj
        cases j with
        | zero => simpa using Bool.eq_false_iff.mpr hav
        | succ i =>
          have := h i (by omega)
          simpa [Nat.add_assoc, Nat.add_comm 1 i] using this
      · intro h j hj
        have := h (j + 1) (by omega)
        simpa [Nat.add_assoc, Nat.add_comm 1 j] using this

theorem waitForGatewayFrom_false_iff (probes : Nat → ProbeOutcome) :
    ∀ (n a : Nat), waitForGatewayFrom probes a n = false ↔
      ∀ j, j < n → checkGatewayHealth (probes (a + j)) = false := by
  intro n
  induction n with
  | zero => intro a; simp [waitForGatewayFrom]
  | succ m ih =>
    intro a
    by_cases hc : checkGatewayHealth (probes a) = true
    · simp only [waitForGatewayFrom, hc, if_true]
      constructor
      · intro h; cases h
      · intro h
        have := h 0 (by omega)
        simp [hc] at this
    · have hc' : checkGatewayHealth (probes a) = false := Bool.eq_false_iff.mpr hc
      simp only [waitForGatewayFrom, hc']
      rw [if_neg (by simp)]
      rw [ih (a + 1)]
      constructor
      · intro h j hj
        cases j with
        | zero => simpa using Bool.eq_false_iff.mpr hc
        | succ i =>
          have := h i (by omega)
          simpa [Nat.add_assoc, Nat.add_comm 1 i] using this
      · intro h j hj
        have := h (j + 1) (by omega)
        simpa [Nat.add_assoc, Nat.add_comm 1 j] using this

theorem takeWhile_append_all {α} (p : α → Bool) :
    ∀ (l₁ l₂ : List α), (∀ c ∈ l₁, p c = true) →
      (l₁ ++ l₂).takeWhile p = l₁ ++ l₂.takeWhile p := by
  intro l₁
  induction l₁ with
  | nil => intro l₂ _; simp
  | cons c cs ih =>
    intro l₂ h
    have hc : p c = true := h c (List.mem_cons_self c cs)
    simp only [List.cons_append, List.takeWhile_cons, hc, if_true]
    rw [ih l₂ (fun x hx => h x (List.mem_cons_of_mem c hx))]

theorem dropWhile_append_all {α} (p : α → Bool) :
    ∀ (l₁ l₂ : List α), (∀ c ∈ l₁, p c = true) →
      (l₁ ++ l₂).dropWhile p = l₂.dropWhile p := by
  intro l₁
  induction l₁ with
  | nil => intro l₂ _; simp
  | cons c cs ih =>
    intro l₂ h
    have hc : p c = true := h c (List.mem_cons_self c cs)
    simp only [List.cons_append, List.dropWhile_cons, hc, if_true]
    exact ih l₂ (fun x hx => h x (List.mem_cons_of_mem c hx))

theorem matchPortField_split (l m rest : List Char)
    (h : matchPortField l = some (m, rest)) : l = m ++ rest := by
  simp only [matchPortField] at h
  split at h
  case isTrue h11 =>
    split at h
    case isTrue => exact absurd h (by simp)
    case isFalse hds =>
      simp only [Option.some.injEq, Prod.mk.injEq] at h
      obtain ⟨hm, hrest⟩ := h
      subst hm hrest
      conv_lhs => rw [← List.take_append_drop 11 l]
      rw [h11]
      conv_lhs =>
        rw [← List.takeWhile_append_dropWhile (p := jsSpace) (l := l.drop 11)]
      conv_lhs =>
        rw [← List.takeWhile_append_dropWhile (p := Char.isDigit)
          (l := (l.drop 11).dropWhile jsSpace)]
      simp [List.append_assoc]
  case isFalse h11 => cases h

theorem replacePortField_frame (rep : List Char) :
    ∀ content : List Char,
      (∃ pre m rest, content = pre ++ m ++ rest ∧
        matchPortField (m ++ rest) = some (m, rest) ∧
        replacePortField rep content = pre ++ rep ++ rest) ∨
      replacePortField rep content = content := by
  intro content
  induction content with
  | nil => right; rfl
  | cons c cs ih =>
    cases hm : matchPortField (c :: cs) with
    | some pr =>
      obtain ⟨m, rest⟩ := pr
      left
      have hsplit := matchPortField_split (c :: cs) m rest hm
      refine ⟨[], m, rest, by simpa using hsplit, ?_, ?_⟩
      · rw [← hsplit]
        exact hm
      · simp [replacePortField, hm]
    | none =>
      rcases ih with ⟨pre, m, rest, hs, hm2, hout⟩ | hout
      · left
        exact ⟨c :: pre, m, rest, by simp [hs], hm2,
          by simp [replacePortField, hm, hout]⟩
      · right
        simp [replacePortField, hm, hout]

theorem digitChar_isDigit : ∀ d, d < 10 → (digitChar d).isDigit = true := by
  decide

theorem natDigits_spec (n : Nat) :
    natDigits n ≠ [] ∧ ∀ c ∈ natDigits n, c.isDigit = true := by
  induction n using Nat.strong_induction_on with
  | _ n ih =>
    rw [natDigits]
    split
    case isTrue h =>
      refine ⟨by simp, ?_⟩
      intro c hc
      simp at hc
      subst hc
      exact digitChar_isDigit n h
    case isFalse h =>
      have hlt : n / 10 < n := Nat.div_lt_self (by omega) (by omega)
      obtain ⟨h1, h2⟩ := ih (n / 10) hlt
      refine ⟨by simp, ?_⟩
      intro c hc
      simp at hc
      rcases hc with hc | hc
      · exact h2 c hc
      · subst hc
        exact digitChar_isDigit _ (Nat.mod_lt _ (by omega))

theorem tempConfigName_matches_pattern (port : Nat) :
    isTempConfName (tempConfigName port) = true := by
  obtain ⟨hne, hdig⟩ := natDigits_spec port
  have htake : (tempConfigName port).take 5 = "conf-".data := rfl
  have hdrop : (tempConfigName port).drop 5 = natDigits port ++ ".yaml".data :=
    rfl
  have hyt : List.takeWhile Char.isDigit ".yaml".data = [] := rfl
  have hyd : List.dropWhile Char.isDigit ".yaml".data = ".yaml".data := rfl
  simp only [isTempConfName, htake, if_pos, hdrop]
  rw [takeWhile_append_all Char.isDigit (natDigits port) _ hdig,
    dropWhile_append_all Char.isDigit (natDigits port) _ hdig, hyt, hyd]
  rcases hx : natDigits port with _ | ⟨c, cs⟩
  · exact absurd hx hne
  · simp

theorem authPollLoop_no_signal (ibPresent : Bool) (ticks : Nat → TickObs) :
    ∀ (fuel t : Nat),
      (∀ j, j < fuel → ibTickSignals ibPresent (ticks (t + j)) = false ∧
        pageTickSignals (ticks (t + j)) = false) →
      authPollLoop ibPresent ticks t fuel = authDeadlineResult := by
  intro fuel
  induction fuel with
  | zero => intro t _; rfl
  | succ m ih =>
    intro t h
    have h0 := h 0 (by omega)
    simp only [Nat.add_zero] at h0
    simp only [authPollLoop, h0.1, h0.2]
    rw [if_neg (by simp), if_neg (by simp)]
    exact ih (t + 1) (fun j hj => by
      have := h (j + 1) (by omega)
      simpa [Nat.add_assoc, Nat.add_comm 1 j] using this)

/-! ## Claim theorems -/

/-- C3: for every start port `s` and attempt count `n`,
`findAvailablePort(s, n)` returns the first free port in `[s, s+n)`:
if `s..s+k-1` are occupied and `s+k` (`k < n`) is free it returns
`s+k`; it never returns an occupied port; and it raises the
no-ports-available error exactly when every port in the range is
occupied. -/
theorem findAvailablePort_first_free_spec (exec : Nat → ExecResult)
    (startPort maxAttempts : Nat) :
    (∀ k, k < maxAttempts →
      (∀ j, j < k → isPortAvailable (exec (startPort + j)) = false) →
      isPortAvailable (exec (startPort + k)) = true →
      findAvailablePort exec startPort maxAttempts = some (startPort + k)) ∧
    (∀ p, findAvailablePort exec startPort maxAttempts = some p →
      isPortAvailable (exec p) = true ∧ startPort ≤ p ∧
        p < startPort + maxAttempts) ∧
    (findAvailablePort exec startPort maxAttempts = none ↔
      ∀ j, j < maxAttempts → isPortAvailable (exec (startPort + j)) = false) :=
  ⟨fun k hk hocc hfree =>
      findAvailablePortFrom_first exec maxAttempts startPort k hk hocc hfree,
   fun p h => findAvailablePortFrom_sound exec maxAttempts startPort p h,
   findAvailablePortFrom_none_iff exec maxAttempts startPort⟩

/-- Witness for C3, the spec's scenario 1: with 5001-5002 occupied and
5003 free, `findAvailablePort(5001, 9)` returns 5003. -/
theorem findAvailablePort_first_free_spec_witness :
    findAvailablePort execBusyLow 5001 9 = some 5003 :=
  (findAvailablePort_first_free_spec execBusyLow 5001 9).1 2 (by decide)
    (fun j hj => by interval_cases j <;> decide) (by decide)

/-- C4: a single health probe reports the gateway alive exactly when
the HTTPS GET yields status 200, 401 or 302; any other status,
connection error or timeout makes the probe report not-alive without
raising (`checkGatewayHealth` resolves `false` rather than
rejecting); and the overall wait fails only when all `maxAttempts`
probes have failed. -/
theorem health_probe_liveness_spec (probes : Nat → ProbeOutcome)
    (maxAttempts : Nat) :
    (∀ o : ProbeOutcome, checkGatewayHealth o = true ↔
      (o = .status 200 ∨ o = .status 401 ∨ o = .status 302)) ∧
    (waitForGateway probes maxAttempts = false ↔
      ∀ a, a < maxAttempts → checkGatewayHealth (probes a) = false) := by
  constructor
  · intro o
    cases o with
    | status code => simp [checkGatewayHealth, or_assoc]
    | connError => simp [checkGatewayHealth]
    | timedOut => simp [checkGatewayHealth]
  · simpa [waitForGateway] using waitForGatewayFrom_false_iff probes maxAttempts 0

/-- Witness for C4: a 401 counts as alive, and a wait over 30
all-refused probes fails. -/
theorem health_probe_liveness_spec_witness :
    checkGatewayHealth (ProbeOutcome.status 401) = true ∧
    waitForGateway probesAllRefused 30 = false :=
  ⟨((health_probe_liveness_spec probesAllRefused 30).1 (.status 401)).mpr
      (Or.inr (Or.inl rfl)),
   (health_probe_liveness_spec probesAllRefused 30).2.mpr (fun _ _ => rfl)⟩

/-- C10: the port-availability probe reports a port available whenever
the OS listing command fails or produces (trimmed-)empty output; with
a listing tool that always errors every probed port is classified
free; and a port is classified occupied exactly when the command
succeeds with non-empty output. -/
theorem port_probe_fail_open (r : ExecResult) (portExec : Nat → ExecResult) :
    (isPortAvailable r = true ↔
      r = .fail ∨ ∃ out, r = .ok out ∧ jsTrim out.data = []) ∧
    ((∀ p, portExec p = .fail) → ∀ p, isPortAvailable (portExec p) = true) ∧
    (isPortAvailable r = false ↔
      ∃ out, r = .ok out ∧ jsTrim out.data ≠ []) := by
  refine ⟨?_, ?_, ?_⟩
  · cases r with
    | fail => simp [isPortAvailable]
    | ok out => simp [isPortAvailable]
  · intro h p
    rw [h p]
    rfl
  · cases r with
    | fail => simp [isPortAvailable]
    | ok out => simp [isPortAvailable]

/-- Witness for C10: with the listing tool erroring, port 5000 is
classified free; an lsof line classifies the port occupied. -/
theorem port_probe_fail_open_witness :
    isPortAvailable (execAllFail 5000) = true ∧
    isPortAvailable (ExecResult.ok "java 1234 user IPv4 TCP LISTEN") = false :=
  ⟨(port_probe_fail_open (.ok "") execAllFail).2.1 (fun p => rfl) 5000,
   (port_probe_fail_open (ExecResult.ok "java 1234 user IPv4 TCP LISTEN")
      execAllFail).2.2.mpr ⟨_, rfl, by decide⟩⟩

/-- C1: at most one gateway subprocess is live per supervisor: a
`start()` while `isStarting` or `isReady` is a no-op returning at once
without spawning; every state a guard-passing run exposes at its
suspension points has `isStarting = true` (so a re-entrant call
interleaved anywhere is such a no-op); and a single run spawns at most
once — exactly once when the artifact and runtime exist.  Two calls
therefore spawn exactly one subprocess. -/
theorem start_reentrant_guard_single_spawn (env : GatewayEnv) (s : SupState)
    (h1 : s.isStarting = false) (h2 : s.isReady = false) :
    (∀ t : SupState, t.isStarting = true ∨ t.isReady = true →
      startGatewayInternal env t = (t, Except.ok ())) ∧
    (∀ t ∈ startInternalTrace env s, t.isStarting = true) ∧
    (startGatewayInternal env s).1.spawnCount ≤ s.spawnCount + 1 ∧
    (env.artifactOnDisk = true → env.javaOnDisk = true →
      (startGatewayInternal env s).1.spawnCount = s.spawnCount + 1) := by
  refine ⟨?_, ?_, ?_, ?_⟩
  · intro t ht
    have hb : (t.isStarting || t.isReady) = true := by
      rcases ht with h | h <;> simp [h]
    simp [startGatewayInternal, hb]
  · intro t ht
    cases ha : env.artifactOnDisk with
    | false =>
      simp [startInternalTrace, h1, h2, ha] at ht
      simp [ht]
    | true =>
      cases hj : env.javaOnDisk with
      | false =>
        simp [startInternalTrace, h1, h2, ha, hj] at ht
        rcases ht with rfl | rfl <;> simp
      | true =>
        simp [startInternalTrace, h1, h2, ha, hj] at ht
        rcases ht with rfl | rfl | rfl <;> simp [spawnState]
  · cases ha : env.artifactOnDisk with
    | false => simp [startGatewayInternal, h1, h2, ha]
    | true =>
      cases hj : env.javaOnDisk with
      | false => simp [startGatewayInternal, h1, h2, ha, hj]
      | true =>
        cases hw : waitForGateway env.healthProbes healthMaxAttempts <;>
          simp [startGatewayInternal, h1, h2, ha, hj, hw, spawnState]
  · intro ha hj
    cases hw : waitForGateway env.healthProbes healthMaxAttempts <;>
      simp [startGatewayInternal, h1, h2, ha, hj, hw, spawnState]

/-- Witness for C1: with everything on disk and a healthy gateway, one
full `startGatewayInternal` run from the fresh state spawns exactly
once. -/
theorem start_reentrant_guard_single_spawn_witness :
    (startGatewayInternal envHealthy initialSupState).1.spawnCount = 1 :=
  (start_reentrant_guard_single_spawn envHealthy initialSupState rfl rfl).2.2.2
    rfl rfl

/-- Counterexample for C2 as stated: from the fresh state, in an
environment whose gateway never answers a health probe, the run does
surface the startup-timeout error, but the spawned subprocess handle
is still held and was never killed — the subprocess is NOT forcibly
terminated on the exhaustion path (the `catch` at gateway-manager.ts
lines 717-721 only resets the two flags). -/
theorem startupTimeout_subprocess_left_running :
    (startGatewayInternal envNeverHealthy initialSupState).2 =
      Except.error StartError.startupTimedOut ∧
    (startGatewayInternal envNeverHealthy initialSupState).1.gatewayProcess =
      some { pid := 42, killed := false } := by
  constructor
  · rfl
  · rfl

/-- C2 as amended: when the health wait exhausts its 30 attempts, the
supervisor resets `isStarting`/`isReady` (the `Failed` state) and the
`StartupTimeout` error is surfaced to the caller, while the spawned
subprocess handle is left in place, unkilled. -/
theorem startupTimeout_failed_state_error (env : GatewayEnv) (s : SupState)
    (h1 : s.isStarting = false) (h2 : s.isReady = false)
    (ha : env.artifactOnDisk = true) (hj : env.javaOnDisk = true)
    (hp : ∀ a, a < healthMaxAttempts →
      checkGatewayHealth (env.healthProbes a) = false) :
    (startGatewayInternal env s).2 = Except.error StartError.startupTimedOut ∧
    (startGatewayInternal env s).1.isStarting = false ∧
    (startGatewayInternal env s).1.isReady = false ∧
    (startGatewayInternal env s).1.gatewayProcess =
      some { pid := env.spawnPid, killed := false } ∧
    (startGatewayInternal env s).1.spawnCount = s.spawnCount + 1 := by
  have hw : waitForGateway env.healthProbes healthMaxAttempts = false := by
    rw [waitForGateway, waitForGatewayFrom_false_iff]
    intro j hj'
    simpa using hp j hj'
  simp [startGatewayInternal, h1, h2, ha, hj, hw, spawnState]

/-- Witness for the amended C2: the never-healthy environment from the
fresh state. -/
theorem startupTimeout_failed_state_error_witness :
    (startGatewayInternal envNeverHealthy initialSupState).2 =
      Except.error StartError.startupTimedOut ∧
    (startGatewayInternal envNeverHealthy initialSupState).1.isStarting = false ∧
    (startGatewayInternal envNeverHealthy initialSupState).1.isReady = false ∧
    (startGatewayInternal envNeverHealthy initialSupState).1.gatewayProcess =
      some { pid := 42, killed := false } ∧
    (startGatewayInternal envNeverHealthy initialSupState).1.spawnCount = 0 + 1 :=
  startupTimeout_failed_state_error envNeverHealthy initialSupState rfl rfl rfl rfl
    (fun _ _ => rfl)

/-- C7: when the default port is occupied and every port in
`[5001, 5010)` is also occupied, `findAvailablePort` raises (returns
`none`), startup does not abort: the supervisor falls back to the
default port, writes no temp config, and continues the start sequence
(the subprocess is spawned) with the default port as the current
port. -/
theorem port_exhaustion_default_fallback (env : GatewayEnv) (s : SupState)
    (h1 : s.isStarting = false) (h2 : s.isReady = false)
    (ha : env.artifactOnDisk = true) (hj : env.javaOnDisk = true)
    (hd : isPortAvailable (env.portExec defaultPort) = false)
    (hall : ∀ j, j < 9 → isPortAvailable (env.portExec (5001 + j)) = false) :
    findAvailablePort env.portExec 5001 9 = none ∧
    (startGatewayInternal env s).1.currentPort = defaultPort ∧
    (startGatewayInternal env s).1.tempConfigPorts = s.tempConfigPorts ∧
    (startGatewayInternal env s).1.spawnCount = s.spawnCount + 1 := by
  have hnone : findAvailablePort env.portExec 5001 9 = none :=
    (findAvailablePortFrom_none_iff env.portExec 9 5001).mpr hall
  have hres : ∀ t : SupState,
      resolvePortState env t = { t with currentPort := defaultPort } := by
    intro t
    unfold resolvePortState
    rw [if_neg (by simp [hd]), hnone]
  refine ⟨hnone, ?_, ?_, ?_⟩ <;>
    cases hw : waitForGateway env.healthProbes healthMaxAttempts <;>
      simp [startGatewayInternal, h1, h2, ha, hj, hw, hres, spawnState]

/-- Witness for C7: every port occupied by a non-gateway process. -/
theorem port_exhaustion_default_fallback_witness :
    findAvailablePort envPortsExhausted.portExec 5001 9 = none ∧
    (startGatewayInternal envPortsExhausted initialSupState).1.currentPort =
      defaultPort ∧
    (startGatewayInternal envPortsExhausted initialSupState).1.tempConfigPorts =
      ([] : List Nat) ∧
    (startGatewayInternal envPortsExhausted initialSupState).1.spawnCount =
      0 + 1 :=
  port_exhaustion_default_fallback envPortsExhausted initialSupState rfl rfl
    rfl rfl (by decide) (by decide)

/-- C9: `isGatewayReady()` is true only when both the readiness flag is
set and a subprocess handle is held; after adopting an already-running
external gateway (`quickStartGateway` with an existing port, which
sets the flag and the port but spawns nothing), `isGatewayReady()`
is false even though the gateway is ready and in use. -/
theorem adopted_gateway_not_reported_ready (env : QuickEnv) (s : SupState)
    (p : Nat) (hq : env.quickExistingPort = some p)
    (hproc : s.gatewayProcess = none) :
    (∀ t : SupState, isGatewayReady t = true ↔
      (t.isReady = true ∧ t.gatewayProcess ≠ none)) ∧
    (quickStartGateway env s).isReady = true ∧
    (quickStartGateway env s).currentPort = p ∧
    isGatewayReady (quickStartGateway env s) = false := by
  refine ⟨?_, ?_, ?_, ?_⟩
  · intro t
    simp [isGatewayReady, Option.isSome_iff_ne_none]
  · simp [quickStartGateway, hq]
  · simp [quickStartGateway, hq]
  · simp [isGatewayReady, quickStartGateway, hq, hproc]

/-- Witness for C9: adopting a gateway on port 5001 from the fresh
state leaves `isGatewayReady()` false while the readiness flag is
set. -/
theorem adopted_gateway_not_reported_ready_witness :
    (quickStartGateway quickEnvExisting initialSupState).isReady = true ∧
    isGatewayReady (quickStartGateway quickEnvExisting initialSupState) =
      false :=
  ⟨(adopted_gateway_not_reported_ready quickEnvExisting initialSupState 5001
      rfl rfl).2.1,
   (adopted_gateway_not_reported_ready quickEnvExisting initialSupState 5001
      rfl rfl).2.2.2⟩

/-- C5: `authenticate` always returns a structured result and never
throws — the body's outcome, successful or thrown, is always turned
into a `HeadlessAuthResult` value — and when the deadline admits
`maxTicks` polling ticks none of which observes a success signal, the
returned value is the timeout result: `success = false` with the
`AuthenticationTimeout` error kind. -/
theorem authenticate_returns_value_timeout (env : AuthEnv) :
    (∀ e, authBody env = Except.error e →
      authenticate env = authFailureResult e) ∧
    (∀ r, authBody env = Except.ok r → authenticate env = r) ∧
    (env.setup = Except.ok () →
      (∀ t, t < env.maxTicks →
        ibTickSignals env.ibClientPresent (env.ticks t) = false ∧
        pageTickSignals (env.ticks t) = false) →
      authenticate env = authDeadlineResult ∧
      errorKindOf (authenticate env) =
        some AuthErrorKind.authenticationTimedOut) := by
  refine ⟨?_, ?_, ?_⟩
  · intro e he
    simp [authenticate, he]
  · intro r hr
    simp [authenticate, hr]
  · intro hs hno
    have hb : authBody env =
        Except.ok (authPollLoop env.ibClientPresent env.ticks 0 env.maxTicks) := by
      simp [authBody, hs]
    have hloop : authPollLoop env.ibClientPresent env.ticks 0 env.maxTicks =
        authDeadlineResult :=
      authPollLoop_no_signal env.ibClientPresent env.ticks env.maxTicks 0
        (fun j hj => by simpa using hno j hj)
    have hr : authenticate env = authDeadlineResult := by
      simp [authenticate, hb, hloop]
    exact ⟨hr, by rw [hr]; rfl⟩

/-- Witness for C5: setup succeeds, the status endpoint always throws,
the page never shows the marker, deadline of 3 ticks: the timeout
result is returned as a value. -/
theorem authenticate_returns_value_timeout_witness :
    authenticate authEnvNoSignal = authDeadlineResult ∧
    errorKindOf (authenticate authEnvNoSignal) =
      some AuthErrorKind.authenticationTimedOut :=
  (authenticate_returns_value_timeout authEnvNoSignal).2.2 rfl
    (fun t ht => ⟨by simp [ibTickSignals, authEnvNoSignal], rfl⟩)

/-- C6: a tunnel's `cleanup()` is idempotent on the active-tunnels
registry (a second call is a no-op), and the scheduled auto-expiry
timer invokes `cleanup()` and removes the tunnel from the registry
even when the caller never called `cleanup()`; after a manual
`cleanup()` the timer's registry check makes its firing a no-op. -/
theorem tunnel_cleanup_idempotent_expiry (u : String) (r : TunnelRegistry) :
    tunnelCleanup u (tunnelCleanup u r) = tunnelCleanup u r ∧
    expiryTimerFire u (tunnelRegister u r) = tunnelCleanup u (tunnelRegister u r) ∧
    u ∉ expiryTimerFire u (tunnelRegister u r) ∧
    expiryTimerFire u (tunnelCleanup u (tunnelRegister u r)) =
      tunnelCleanup u (tunnelRegister u r) := by
  have hin : u ∈ tunnelRegister u r := Finset.mem_insert_self u r
  have hout : u ∉ tunnelCleanup u (tunnelRegister u r) := Finset.not_mem_erase u _
  refine ⟨Finset.erase_idem, ?_, ?_, ?_⟩
  · rw [expiryTimerFire, if_pos hin]
  · rw [expiryTimerFire, if_pos hin]
    exact hout
  · rw [expiryTimerFire, if_neg hout]

/-- C8: the derived temp config for port `p` differs from the original
content only in the (first) `listenPort` field: the content splits as
`pre ++ field ++ rest` with the field matching `/listenPort:\s*\d+/`,
and the output is `pre ++ "listenPort: p" ++ rest` — every byte
outside the matched field unchanged (when no field matches, the
content is unchanged).  Moreover the derived file name
`conf-<p>.yaml` matches the `/^conf-\d+\.yaml$/` pattern that
`cleanupTempConfigFiles` deletes on shutdown. -/
theorem temp_config_frame_and_name (content : List Char) (port : Nat) :
    ((∃ pre m rest, content = pre ++ m ++ rest ∧
        matchPortField (m ++ rest) = some (m, rest) ∧
        createTempConfigContent content port =
          pre ++ portFieldReplacement port ++ rest) ∨
      createTempConfigContent content port = content) ∧
    isTempConfName (tempConfigName port) = true :=
  ⟨replacePortField_frame (portFieldReplacement port) content,
   tempConfigName_matches_pattern port⟩

end IBMcp
